import Mathlib

/-!
Verification development for the Agentic-News RAG orchestration pipeline.

This file gives a shallow embedding, in Lean 4, of the orchestration code of
the repository (backend/rag): the query cache (`cache/query_cache.py`), the
LangGraph nodes (`nodes/query_analysis.py`, `nodes/internal_search.py`,
`nodes/relevance_check.py`, `nodes/naver_search.py`, `nodes/build_context.py`,
`nodes/generation.py`), the source extractor (`utils/source_extractor.py`)
and the top-level runner (`integrated_graph.py`), together with theorems
settling the behavioural claims about that code.

Modelling conventions, used throughout:
* Python floats (ES scores, the fixed source scores 1.0 / 0.9) are modelled as
  exact rationals (`Rat`); no claim here depends on floating-point rounding.
* Python dicts are modelled as insertion-ordered association lists with unique
  keys; `d[k] = v` replaces in place when the key is present and appends
  otherwise, `del d[k]` removes the binding.
* The external collaborators (the LLM, Elasticsearch, the Naver client,
  DuckDuckGo) are opaque capabilities; each is modelled as an explicit oracle
  function, with `Except` for calls that may raise.
* String primitives used by the code (`in`, `.lower()`, `.strip()`,
  `.split("\n")`, slicing `[:n]`) are re-implemented structurally over the
  character list of the string so that all definitions evaluate by kernel
  reduction.  `.strip()` / `.lower()` are modelled on `Char.isWhitespace` /
  `Char.toLower`, which agree with Python on the ASCII and Hangul text the
  code manipulates.
-/

/-- Python `needle in hay` prefix test on char lists: does the first list start
with the second? -/
def listStartsWith : List Char → List Char → Bool
  | _, [] => true
  | [], _ :: _ => false
  | a :: as, b :: bs => a = b && listStartsWith as bs

/-- Substring occurrence on char lists (any position). -/
def listContainsSeq : List Char → List Char → Bool
  | [], needle => needle.isEmpty
  | a :: rest, needle => listStartsWith (a :: rest) needle || listContainsSeq rest needle

/-- The Python `needle in hay` test for strings (substring containment). -/
def pyIn (needle hay : String) : Bool :=
  listContainsSeq hay.data needle.data

/-- Python `s.lower()` (per-character lowering; identical to Python on the
ASCII/Hangul strings handled by this code). -/
def pyLower (s : String) : String :=
  ⟨s.data.map Char.toLower⟩

/-- Python `s.strip()` (whitespace trimmed from both ends; the wider Python
Unicode whitespace set is abstracted to `Char.isWhitespace`, which agrees on
the ASCII whitespace appearing here). -/
def pyStrip (s : String) : String :=
  ⟨((s.data.dropWhile Char.isWhitespace).reverse.dropWhile Char.isWhitespace).reverse⟩

/-- Python slicing `s[:n]` (by characters). -/
def pyTake (n : Nat) (s : String) : String :=
  ⟨s.data.take n⟩

/-- Python `text.split("\n")` on char lists (splitting on a separator char;
always returns at least one piece, like Python). -/
def splitCharAux (sep : Char) : List Char → List Char → List String
  | [], acc => [⟨acc.reverse⟩]
  | c :: rest, acc =>
    if c = sep then (⟨acc.reverse⟩ : String) :: splitCharAux sep rest []
    else splitCharAux sep rest (c :: acc)

/-- Python `text.split("\n")`. -/
def pySplitLines (s : String) : List String :=
  splitCharAux '\n' s.data []

/-- One turn of `chat_history`: a `{role, content}` message dict. -/
structure ChatMsg where
  role : String
  content : String
deriving DecidableEq, Repr

/-- The `SearchResult` of the Naver client (`external/naver_client.py`, an external
collaborator of the orchestration code): the fields read by the nodes and by
`_make_result_serializable`. -/
structure SearchResult where
  title : String
  link : String
  snippet : String
  source : String
  published_date : Option String
deriving DecidableEq, Repr

/-- The `_source` document of an Elasticsearch hit: the fields the code reads
with `.get` (each may be absent). -/
structure ESSource where
  title : Option String
  source : Option String
  url : Option String
  text : Option String
  content : Option String
  date : Option String
deriving DecidableEq, Repr

/-- One Elasticsearch hit: `{"_score": ..., "_source": {...}}`.  An absent
`"_score"` key behaves exactly like the `.get` default `0.0` everywhere the
code reads it, so it is modelled as the score `0`; an absent `"_source"` is
the all-absent `ESSource`. -/
structure ESHit where
  score : Rat
  src : ESSource
deriving DecidableEq, Repr

/-- Per-sub-query Elasticsearch response: `res["hits"]["total"]["value"]` and
`res["hits"]["hits"]` (missing levels default to `0` / `[]` via `.get`). -/
structure ESQueryRes where
  totalValue : Nat
  hits : List ESHit
deriving DecidableEq, Repr

/-- The `state["es_results"]` value: `{"queries": {sub_query: res}, "total": n}`.  The
initial empty dict `{}` reads as `queries = []`, `total = 0` through `.get`,
so it is modelled by that value. -/
structure ESResults where
  queries : List (String × ESQueryRes)
  total : Nat
deriving DecidableEq, Repr

/-- The `Source` record of `utils/source_extractor.py` (its `to_dict` form; `to_dict` and
`Source(**d)` are mutually inverse, so the object and its dict are
identified). -/
structure Source where
  title : String
  url : String
  source_type : String
  snippet : String
  date : String
  score : Rat
deriving DecidableEq, Repr

/-- The `query_analysis` dict as produced by `analyze_query` (after its
default-filling): `intent`, `search_strategy` and `sub_queries` are always
present; the `needs_web_search` key may be absent. -/
structure QueryAnalysis where
  intent : String
  search_strategy : String
  sub_queries : List String
  needs_web_search : Option Bool
deriving DecidableEq, Repr

/-- The JSON object decoded from the reply of the analysis LLM, projected to the
keys `analyze_query` reads: each may be missing (`sub_queries` is also treated
as missing when not a JSON list, mirroring the `isinstance` check). -/
structure ParsedAnalysis where
  intent : Option String
  search_strategy : Option String
  sub_queries : Option (List String)
  needs_web_search : Option Bool
deriving DecidableEq, Repr

/-- The LangGraph `AgentState` (`agent_state.py`): the pipeline state dict.
`query_analysis = none` is the initial empty dict `{}`. -/
structure AgentState where
  user_query : String
  chat_history : List ChatMsg
  query_analysis : Option QueryAnalysis
  es_results : ESResults
  is_relevant_enough : Bool
  relevance_score : Rat
  need_websearch : List String
  naver_results : List SearchResult
  web_results : List (String × String)
  context : String
  sources : List Source
  answer : String
deriving DecidableEq, Repr

/-- The `initial_state` literal built in `run_query`
(`integrated_graph.py:317-330`). -/
def initialState (user_query : String) (chat_history : List ChatMsg) : AgentState where
  user_query := user_query
  chat_history := chat_history
  query_analysis := none
  es_results := ⟨[], 0⟩
  is_relevant_enough := false
  relevance_score := 0
  need_websearch := []
  naver_results := []
  web_results := []
  context := ""
  sources := []
  answer := ""

/-- Joining of a list of strings with a separator (Python `sep.join(...)`). -/
def joinWith (sep : String) : List String → String
  | [] => ""
  | [x] => x
  | x :: y :: rest => x ++ sep ++ joinWith sep (y :: rest)

/-- The temporal-keyword list, written identically in
`nodes/query_analysis.py:47` and `nodes/relevance_check.py:49`. -/
def time_keywords : List String :=
  ["오늘", "최신", "최근", "현재", "지금", "요즘", "이번", "오늘의", "최신 뉴스", "최근 뉴스"]

/-- The recency hint: `any(keyword in user_query for keyword in time_keywords)`. -/
def needsRecentInfo (user_query : String) : Bool :=
  time_keywords.any (fun k => pyIn k user_query)

/-- Oracle for the analysis LLM call of `analyze_query`: the composition of the
fixed prompt template `get_query_analysis_prompt` (from `rag/prompts`, a fixed
deterministic text of its two arguments) with `llm.invoke`, the code-fence
regex and `json.loads`.  `Except.error` covers both an invoke failure and a
JSON decode failure — the code handles the two identically in one `except`. -/
def AnalysisOracle : Type :=
  String → Bool → Except Unit ParsedAnalysis

/-- Oracle for the relevance-judge LLM call of `check_relevance`: the
composition of `get_relevance_check_prompt` (a fixed deterministic text of its
five arguments: sub-query, top ES score, context snippet, user query, recency
flag) with `llm.invoke`; returns the `content` of the reply or `Except.error` when
the invocation raises. -/
def JudgeOracle : Type :=
  String → Rat → String → String → Bool → Except Unit String

/-- Oracle for `UnifiedSearchClient().search(query=q, num_results=5,
provider="naver")`: ranked hits, or `Except.error` when the call raises. -/
def NaverOracle : Type :=
  String → Except Unit (List SearchResult)

/-- Oracle for `DuckDuckGoSearchRun().run(q)`: a result text, or
`Except.error` when the call raises. -/
def DdgOracle : Type :=
  String → Except Unit String

/-- Oracle for the generation LLM call of `generate_answer`: the composition
of `get_generation_prompt` (a fixed deterministic text of its arguments) and
the replayed `chat_history` messages with `llm.invoke`; returns the
`content` (the error carries `str(e)`). -/
def GenOracle : Type :=
  String → String → Bool → Bool → List ChatMsg → Except String String

/-- The `analyze_query` node (`nodes/query_analysis.py`): on a decoded reply,
fill the missing keys with the defaults and, when the recency hint fires,
force `search_strategy` and `needs_web_search`; on any failure fall back to
the default single-sub-query analysis (which carries no `needs_web_search`
key, since the forcing happens inside the `try` block). -/
def analyze_query (st : AgentState) (llm : AnalysisOracle) : AgentState :=
  let user_query := st.user_query
  let needs_recent_info := needsRecentInfo user_query
  let analysis : QueryAnalysis :=
    match llm user_query needs_recent_info with
    | .ok p =>
      let base : QueryAnalysis :=
        { intent := p.intent.getD "검색"
          search_strategy := p.search_strategy.getD "internal_and_external"
          sub_queries := p.sub_queries.getD [user_query]
          needs_web_search := p.needs_web_search }
      if needs_recent_info then
        { base with search_strategy := "internal_and_external", needs_web_search := some true }
      else base
    | .error _ =>
      { intent := "검색"
        search_strategy := "internal_and_external"
        sub_queries := [user_query]
        needs_web_search := none }
  { st with query_analysis := some analysis }

/-- The `search_internal_db` node (`nodes/internal_search.py`):
`search_multiple_queries` is the internal-search capability, absent when the
Elasticsearch client is `None`; on absence or failure the node stores the
empty result set (`queries = {}`, `total = 0`) and the pipeline continues. -/
def search_internal_db (st : AgentState)
    (es : Option (List String → Except Unit (List (String × ESQueryRes)))) : AgentState :=
  let sub_queries := (st.query_analysis.map QueryAnalysis.sub_queries).getD [st.user_query]
  match es with
  | none => { st with es_results := ⟨[], 0⟩ }
  | some search =>
    match search sub_queries with
    | .ok all_results =>
      { st with es_results := ⟨all_results, (all_results.map (fun p => p.2.totalValue)).sum⟩ }
    | .error _ => { st with es_results := ⟨[], 0⟩ }

/-- The context-snippet string `check_relevance` builds for one sub-query
(`relevance_check.py:94-117`): the no-documents sentinel when the hit list is
empty, otherwise one tagged line per top-3 hit. -/
def relevanceContext (hits : List ESHit) : String :=
  if hits.isEmpty then "내부 DB에서 검색된 문서가 없습니다."
  else
    (hits.take 3).foldl
      (fun acc h =>
        let title := h.src.title.getD (h.src.source.getD "제목 없음")
        let text_data := h.src.text.getD (h.src.content.getD "내용 없음")
        acc ++ "- [ES Content] Title: " ++ title ++ ", Snippet: " ++ (pyTake 200 text_data ++ "...") ++ "\n")
      ""

/-- The top-hit score `check_relevance` extracts for one sub-query: `0.0` when
the hit list is empty. -/
def topHitScore (hits : List ESHit) : Rat :=
  (hits.head?.map ESHit.score).getD 0

/-- The per-sub-query decision string of `check_relevance` (lines 135-161):
the literal `"web"` under the recency/analysis override, otherwise the judge
reply lower-cased and stripped, defaulting to `"db"` when the invocation
raises. -/
def relevanceDecision (judge : JudgeOracle) (user_query : String)
    (needs_recent_info force : Bool) (q : String) (hits : List ESHit) : String :=
  if force then "web"
  else
    match judge q (topHitScore hits) (relevanceContext hits) user_query needs_recent_info with
    | .ok resp => pyLower (pyStrip resp)
    | .error _ => "db"

/-- The `check_relevance` node (`nodes/relevance_check.py`): when the ES
result mapping is empty, every analysis sub-query needs web search; otherwise
each sub-query key is judged in order and collected into `need_websearch`
exactly when `"web"` occurs in its decision string; `is_relevant_enough` holds
iff no sub-query was collected; `relevance_score` is the mean of the top-hit
scores over sub-queries that have hits (`0.0` if none do). -/
def check_relevance (st : AgentState) (judge : JudgeOracle) : AgentState :=
  let queries_results := st.es_results.queries
  let user_query := st.user_query
  let needs_recent_info := needsRecentInfo user_query
  let needs_web_from_analysis := (st.query_analysis.bind QueryAnalysis.needs_web_search).getD false
  if queries_results.isEmpty then
    let sub_queries := (st.query_analysis.map QueryAnalysis.sub_queries).getD [st.user_query]
    { st with is_relevant_enough := false, relevance_score := 0, need_websearch := sub_queries }
  else
    let force := needs_recent_info || needs_web_from_analysis
    let need_web := queries_results.filterMap (fun p =>
      if pyIn "web" (relevanceDecision judge user_query needs_recent_info force p.1 p.2.hits)
      then some p.1 else none)
    let scores := queries_results.filterMap (fun p => p.2.hits.head?.map ESHit.score)
    let relevance_score : Rat := if scores.isEmpty then 0 else scores.sum / scores.length
    { st with
      is_relevant_enough := need_web.isEmpty
      relevance_score := relevance_score
      need_websearch := need_web }

/-- The sentinel stored in `web_results` when both providers fail for a
sub-query (`nodes/naver_search.py:84,87`): "web search failed". -/
def WEB_SEARCH_FAILED : String := "웹 검색 실패"

/-- The formatting of a successful Naver result list into the `web_results`
text (`naver_search.py:66-69`), numbering from 1. -/
def formatNaverLines : Nat → List SearchResult → List String
  | _, [] => []
  | i, r :: rest =>
    (toString i ++ ". " ++ r.title ++ "\n   " ++ r.link ++ "\n   " ++ pyTake 200 r.snippet ++ "...")
      :: formatNaverLines (i + 1) rest

/-- The `"\n".join(...)` of the formatted Naver lines. -/
def formatNaverResults (results : List SearchResult) : String :=
  joinWith "\n" (formatNaverLines 1 results)

/-- One provider invocation of the external fan-out, for the call trace. -/
inductive ProviderCall where
  | naver (q : String)
  | ddg (q : String)
deriving DecidableEq, Repr

/-- The provider invocations `search_naver` performs for one sub-query, in
order: Naver is always called once; DuckDuckGo is called exactly when the
Naver call raises (`naver_search.py:56-87`). -/
def searchOneQueryCalls (naver : NaverOracle) (q : String) : List ProviderCall :=
  match naver q with
  | .ok _ => [.naver q]
  | .error _ => [.naver q, .ddg q]

/-- The `web_results[q]` text `search_naver` stores for one sub-query: the
formatted Naver hits on primary success, else the DuckDuckGo text on fallback
success, else the failure sentinel. -/
def searchOneQueryResult (naver : NaverOracle) (ddg : DdgOracle) (q : String) : String :=
  match naver q with
  | .ok results => formatNaverResults results
  | .error _ =>
    match ddg q with
    | .ok text => text
    | .error _ => WEB_SEARCH_FAILED

/-- The hits one sub-query contributes to `naver_results`: the Naver hits on
primary success (`naver_results.extend(results)`), nothing otherwise (the
DuckDuckGo fallback only feeds `web_results`). -/
def searchOneQueryNaverHits (naver : NaverOracle) (q : String) : List SearchResult :=
  match naver q with
  | .ok results => results
  | .error _ => []

/-- The full provider-call trace of one `search_naver` execution over the
`need_websearch` list. -/
def searchNaverTrace (naver : NaverOracle) (need_websearch : List String) : List ProviderCall :=
  need_websearch.flatMap (searchOneQueryCalls naver)

/-- The `search_naver` node (`nodes/naver_search.py`): for each sub-query in
`need_websearch`, try Naver then DuckDuckGo, store a per-query text in
`web_results` (dict in iteration order) and extend `naver_results` with the
successful Naver hits; when `need_websearch` is empty, store empty results. -/
def search_naver (st : AgentState) (naver : NaverOracle) (ddg : DdgOracle) : AgentState :=
  if st.need_websearch.isEmpty then
    { st with naver_results := [], web_results := [] }
  else
    { st with
      web_results := st.need_websearch.map (fun q => (q, searchOneQueryResult naver ddg q))
      naver_results := st.need_websearch.flatMap (searchOneQueryNaverHits naver) }

/-- The fixed score assigned to every `web_results`-derived source
(`source_extractor.py:114`): the Python float literal `0.9`. -/
def WEB_SOURCE_SCORE : Rat := ⟨9, 10, by norm_num, by norm_num⟩

/-- The sources extracted from the per-sub-query ES hits
(`source_extractor.py:56-77`): top-3 hits per sub-query, tagged
`"internal_db"`, carrying the own score of the hit. -/
def esSources (queries : List (String × ESQueryRes)) : List Source :=
  queries.flatMap (fun p =>
    (p.2.hits.take 3).map (fun h =>
      let text := h.src.text.getD (h.src.content.getD "")
      { title := h.src.title.getD (h.src.source.getD "제목 없음")
        url := h.src.url.getD ""
        source_type := "internal_db"
        snippet := if text = "" then "" else pyTake 200 text
        date := h.src.date.getD ""
        score := h.score }))

/-- The sources extracted from `naver_results`
(`source_extractor.py:79-93`): first `max_sources` entries, tagged
`"naver"`, every one carrying the fixed default score `1.0`. -/
def naverSources (naver_results : List SearchResult) (max_sources : Nat) : List Source :=
  (naver_results.take max_sources).map (fun r =>
    { title := r.title
      url := r.link
      source_type := "naver"
      snippet := r.snippet
      date := ""
      score := 1 })

/-- The sources extracted from the `web_results` texts
(`source_extractor.py:95-115`): non-sentinel texts only; the title is the
first line, the url the first stripped line containing `"http"` or `"www"`,
tagged `"web"`, every one carrying the fixed default score `0.9`. -/
def webSources (web_results : List (String × String)) : List Source :=
  web_results.filterMap (fun p =>
    if p.2 ≠ "" ∧ p.2 ≠ WEB_SEARCH_FAILED then
      let lines := pySplitLines p.2
      let title := lines.head?.getD p.1
      let url := ((lines.find? (fun l => pyIn "http" l || pyIn "www" l)).map pyStrip).getD ""
      some
        { title := pyTake 100 title
          url := url
          source_type := "web"
          snippet := pyTake 200 p.2
          date := ""
          score := WEB_SOURCE_SCORE }
    else none)

/-- The URL deduplication pass of `extract_sources_from_state`
(`source_extractor.py:117-125`): keep the first occurrence of every non-empty
url; entries with an empty url are always kept. -/
def dedupByUrlAux (seen : List String) : List Source → List Source
  | [] => []
  | s :: rest =>
    if s.url ≠ "" ∧ s.url ∈ seen then dedupByUrlAux seen rest
    else s :: dedupByUrlAux (if s.url ≠ "" then s.url :: seen else seen) rest

/-- URL deduplication starting from the empty `seen` set. -/
def dedupByUrl (sources : List Source) : List Source :=
  dedupByUrlAux [] sources

/-- The descending stable sort by score (`unique_sources.sort(key=..., 
reverse=True)`, `source_extractor.py:128`): the stable Python sort is modelled
by stable insertion sort over the total order "score not below", which yields
the same list. -/
def sortByScoreDesc (sources : List Source) : List Source :=
  sources.insertionSort (fun a b => b.score ≤ a.score)

/-- The full `extract_sources_from_state` (`source_extractor.py:43-130`): ES
sources, then Naver sources, then web-text sources; dedup by url; sort by
score descending; cap at `max_sources`. -/
def extract_sources_from_state (st : AgentState) (max_sources : Nat) : List Source :=
  let sources := esSources st.es_results.queries
    ++ naverSources st.naver_results max_sources
    ++ webSources st.web_results
  (sortByScoreDesc (dedupByUrl sources)).take max_sources

/-- Rendering of a score inside a context/log string.  Python formats the
float with `f"{score:.4f}"`; the rendering feeds only the opaque generation
LLM, so the exact digit string is abstracted to the canonical rational
rendering. -/
def fmtScore (s : Rat) : String := toString s

/-- The source-list block appended to the answer
(`source_extractor.py:133-157`), numbering from 1. -/
def formatSourcesForAnswerAux : Nat → List Source → String
  | _, [] => ""
  | i, s :: rest =>
    (if s.url ≠ "" then toString i ++ ". [" ++ s.title ++ "](" ++ s.url ++ ")\n"
     else toString i ++ ". " ++ s.title ++ "\n")
      ++ (if s.snippet ≠ "" then "   요약: " ++ pyTake 100 s.snippet ++ "...\n" else "")
      ++ formatSourcesForAnswerAux (i + 1) rest

/-- `format_sources_for_answer` (`source_extractor.py:133-157`). -/
def format_sources_for_answer (sources : List Source) : String :=
  if sources.isEmpty then ""
  else "\n\n---\n**참고 자료:**\n" ++ formatSourcesForAnswerAux 1 sources

/-- The source-info block appended to the context
(`source_extractor.py:160-185`), numbering from 1. -/
def formatSourcesForContextAux : Nat → List Source → String
  | _, [] => ""
  | i, s :: rest =>
    "\n[" ++ toString i ++ "] " ++ s.title ++ "\n"
      ++ (if s.url ≠ "" then "   링크: " ++ s.url ++ "\n" else "")
      ++ (if s.date ≠ "" then "   날짜: " ++ s.date ++ "\n" else "")
      ++ (if s.snippet ≠ "" then "   요약: " ++ pyTake 150 s.snippet ++ "...\n" else "")
      ++ "   출처: " ++ s.source_type ++ "\n"
      ++ formatSourcesForContextAux (i + 1) rest

/-- `format_sources_for_context` (`source_extractor.py:160-185`). -/
def format_sources_for_context (sources : List Source) : String :=
  if sources.isEmpty then ""
  else "\n=== 출처 정보 ===\n" ++ formatSourcesForContextAux 1 sources

/-- The merged ES block of `build_context` (`build_context.py:43-57`): one
tagged line per hit of every sub-query (the per-query `try` can not fail on
well-formed dict data, so the `except` arm is dead in the model). -/
def mergedESContext (queries : List (String × ESQueryRes)) : String :=
  queries.foldl
    (fun acc p =>
      p.2.hits.foldl
        (fun acc2 h =>
          acc2 ++ "\n[ES(RRF Score: " ++ fmtScore h.score ++ ")] "
            ++ h.src.text.getD (h.src.content.getD ""))
        acc)
    ""

/-- The structured Naver block of the web context
(`build_context.py:71-77`), numbering from 1 over the first 10 results. -/
def naverContextLines : Nat → List SearchResult → String
  | _, [] => ""
  | i, r :: rest =>
    "\n" ++ toString i ++ ". " ++ r.title ++ "\n   링크: " ++ r.link
      ++ "\n   요약: " ++ r.snippet ++ "\n" ++ naverContextLines (i + 1) rest

/-- The web block of `build_context` (`build_context.py:62-85`): the Naver
block when `naver_results` is non-empty, then one tagged block per
non-sentinel `web_results` text. -/
def webContext (naver_results : List SearchResult) (web_results : List (String × String)) : String :=
  (if naver_results.isEmpty then ""
   else "\n=== 최신 뉴스 (웹 검색 결과) ===\n" ++ naverContextLines 1 (naver_results.take 10))
    ++ web_results.foldl
      (fun acc p =>
        if p.2 ≠ "" ∧ p.2 ≠ WEB_SEARCH_FAILED then
          acc ++ "\n[WEB 검색 - 쿼리: " ++ p.1 ++ "]\n" ++ p.2 ++ "\n"
        else acc)
      ""

/-- The `build_context` node (`nodes/build_context.py`): the web block is
prepended before the ES block; the no-results sentinel is used when both are
absent; the extracted (deduplicated, sorted, capped-at-10) sources are stored
and their info block appended to the context. -/
def build_context (st : AgentState) : AgentState :=
  let merged_context := mergedESContext st.es_results.queries
  let context_parts := if merged_context ≠ "" then [merged_context] else []
  let context_parts :=
    if ¬ st.web_results.isEmpty ∨ ¬ st.naver_results.isEmpty then
      let web_ctx := webContext st.naver_results st.web_results
      if web_ctx ≠ "" then web_ctx :: context_parts else context_parts
    else context_parts
  let context :=
    if ¬ context_parts.isEmpty then joinWith "\n" context_parts else "검색 결과가 없습니다."
  let sources := extract_sources_from_state st 10
  let context :=
    if ¬ sources.isEmpty then context ++ format_sources_for_context sources else context
  { st with context := context, sources := sources }

/-- The `generate_answer` node (`nodes/generation.py`): on LLM success the
answer is the reply content, with the formatted source list appended when
sources exist and the reply does not already carry a citations marker; on
failure the answer is the literal error string — the node never raises. -/
def generate_answer (st : AgentState) (llm : GenOracle) : AgentState :=
  let has_web_results := decide (st.web_results.length > 0)
  let has_es_results := decide (st.es_results.total > 0)
  let answer :=
    match llm st.user_query st.context has_web_results has_es_results st.chat_history with
    | .ok content =>
      if ¬ st.sources.isEmpty then
        if ¬ (pyIn "참고 자료" content) ∧ ¬ (pyIn "출처" content) then
          content ++ format_sources_for_answer st.sources
        else content
      else content
    | .error e => "답변 생성 중 오류가 발생했습니다: " ++ e
  { st with answer := answer }

/-- The branch predicate of the conditional edge
(`integrated_graph.py:56-70`): the LangGraph label `"naver_search"` when the
relevance is not sufficient or some sub-query needs web search, else
`"build_context"`. -/
def should_search_naver (st : AgentState) : String :=
  if st.is_relevant_enough = false ∨ st.need_websearch.length > 0 then "naver_search"
  else "build_context"

/-- The nodes of the compiled LangGraph (`create_integrated_agent_graph`). -/
inductive GraphNode where
  | query_analysis
  | internal_db_search
  | relevance_check_node
  | naver_search_node
  | build_context_node
  | generation
deriving DecidableEq, Repr

/-- The label-to-node mapping passed to `add_conditional_edges`
(`integrated_graph.py:174-181`). -/
def relevanceEdgeMap : List (String × GraphNode) :=
  [("naver_search", GraphNode.naver_search_node), ("build_context", GraphNode.build_context_node)]

/-- Association-list lookup modelling Python dict lookup (first — and, with
unique keys, only — binding). -/
def dictFind {κ ν : Type} [DecidableEq κ] (l : List (κ × ν)) (k : κ) : Option ν :=
  (l.find? (fun p => decide (p.1 = k))).map Prod.snd

/-- The node the conditional edge routes to after `relevance_check`: the edge
map applied to `should_search_naver`. -/
def nextNodeAfterRelevance (st : AgentState) : Option GraphNode :=
  dictFind relevanceEdgeMap (should_search_naver st)

/-- The oracle bundle of one compiled graph: the LLM (used by three nodes),
the internal search capability (absent when the Elasticsearch client is
`None`), and the two external providers. -/
structure Oracles where
  analysisLLM : AnalysisOracle
  es : Option (List String → Except Unit (List (String × ESQueryRes)))
  judgeLLM : JudgeOracle
  naver : NaverOracle
  ddg : DdgOracle
  genLLM : GenOracle

/-- One invocation of the compiled graph (`create_integrated_agent_graph`):
`query_analysis → internal_db_search → relevance_check`, then the conditional
edge (through `naver_search` exactly when it yields that label), then
`build_context → generation`.  Each stage is total: stage-local failures are
absorbed by the node models. -/
def graphInvoke (o : Oracles) (st : AgentState) : AgentState :=
  let st1 := analyze_query st o.analysisLLM
  let st2 := search_internal_db st1 o.es
  let st3 := check_relevance st2 o.judgeLLM
  let st4 :=
    match nextNodeAfterRelevance st3 with
    | some GraphNode.naver_search_node => search_naver st3 o.naver o.ddg
    | _ => st3
  generate_answer (build_context st4) o.genLLM

/-- The `_make_result_serializable` conversion (`integrated_graph.py:25-53`):
it rewrites `SearchResult` objects into plain dicts field by field; on the
model, whose `SearchResult` is already a plain record, it is the identity. -/
def make_result_serializable (result : AgentState) : AgentState := result

/-- One stored cache entry (`query_cache.py:101-107`).  The two `time.time()`
calls of one `set` are modelled as one instant. -/
structure CacheItem (ρ : Type) where
  result : ρ
  timestamp : Int
  last_accessed : Int
  access_count : Nat
deriving DecidableEq, Repr

/-- The `QueryCache` store (`query_cache.py:12-28`), generic in the key and
value types; the MD5 taken by `_generate_key` over the canonical JSON of
`{query, context}` is modelled as the (injective) pair itself, MD5 collisions
being out of scope. -/
structure QueryCache (κ ρ : Type) where
  cache : List (κ × CacheItem ρ)
  max_size : Nat
  ttl : Int
  hits : Nat
  misses : Nat
deriving DecidableEq, Repr

/-- Python `del d[k]` on the association list (unique keys: remove the
binding). -/
def dictErase {κ ν : Type} [DecidableEq κ] : List (κ × ν) → κ → List (κ × ν)
  | [], _ => []
  | p :: rest, k => if p.1 = k then rest else p :: dictErase rest k

/-- Python `d[k] = v`: replace in place when present, append otherwise. -/
def dictInsert {κ ν : Type} [DecidableEq κ] (l : List (κ × ν)) (k : κ) (v : ν) : List (κ × ν) :=
  if (dictFind l k).isSome then l.map (fun p => if p.1 = k then (k, v) else p)
  else l ++ [(k, v)]

/-- Python `min(keys, key=lambda k: last_accessed)` over a non-empty dict
(`query_cache.py:95-98`): the first key attaining the minimal
`last_accessed` (every entry carries the key, see `CacheItem`). -/
def lruKeyAux {κ ρ : Type} (cur : κ × CacheItem ρ) : List (κ × CacheItem ρ) → κ
  | [] => cur.1
  | p :: rest => if p.2.last_accessed < cur.2.last_accessed then lruKeyAux p rest else lruKeyAux cur rest

/-- The `QueryCache.get` method (`query_cache.py:48-79`): miss on an absent
key; lazy eviction and miss on an expired entry; otherwise a hit that bumps
`access_count` and refreshes `last_accessed`. -/
def QueryCache.get {κ ρ : Type} [DecidableEq κ] (c : QueryCache κ ρ) (now : Int) (key : κ) :
    Option ρ × QueryCache κ ρ :=
  match dictFind c.cache key with
  | none => (none, { c with misses := c.misses + 1 })
  | some item =>
    if now - item.timestamp > c.ttl then
      (none, { c with cache := dictErase c.cache key, misses := c.misses + 1 })
    else
      (some item.result,
        { c with
          cache := dictInsert c.cache key
            { item with access_count := item.access_count + 1, last_accessed := now }
          hits := c.hits + 1 })

/-- The `QueryCache.set` method (`query_cache.py:81-107`): when the store has
reached `max_size`, evict the least-recently-accessed entry first; then store
a fresh entry under the key.  When eviction is required of an empty store
(only possible with `max_size = 0`), the Python `min` raises `ValueError` before
any mutation — modelled by `Except.error` leaving the store unchanged. -/
def QueryCache.set {κ ρ : Type} [DecidableEq κ] (c : QueryCache κ ρ) (now : Int) (key : κ)
    (value : ρ) : Except Unit (QueryCache κ ρ) :=
  if c.cache.length ≥ c.max_size then
    match c.cache with
    | [] => .error ()
    | p :: rest =>
      let victim := lruKeyAux p rest
      .ok { c with cache := dictInsert (dictErase c.cache victim) key ⟨value, now, now, 1⟩ }
  else
    .ok { c with cache := dictInsert c.cache key ⟨value, now, now, 1⟩ }

/-- The `QueryCache.clear` method (`query_cache.py:109-113`). -/
def QueryCache.clear {κ ρ : Type} (c : QueryCache κ ρ) : QueryCache κ ρ :=
  { c with cache := [], hits := 0, misses := 0 }

/-- The `QueryCache.remove_expired` method (`query_cache.py:129-140`): drop
every expired entry, returning how many were dropped. -/
def QueryCache.remove_expired {κ ρ : Type} (c : QueryCache κ ρ) (now : Int) :
    Nat × QueryCache κ ρ :=
  let kept := c.cache.filter (fun p => ¬ (now - p.2.timestamp > c.ttl))
  (c.cache.length - kept.length, { c with cache := kept })

/-- A fresh `QueryCache(max_size, ttl)`. -/
def QueryCache.empty {κ ρ : Type} (max_size : Nat) (ttl : Int) : QueryCache κ ρ :=
  ⟨[], max_size, ttl, 0, 0⟩

/-- The normalized query component of `_generate_key`
(`query_cache.py:41-46`): `query.lower().strip()`. -/
def pyNormQuery (q : String) : String := pyStrip (pyLower q)

/-- The two shapes of `context` dict that `run_query` ever passes to
`_generate_key`: the lookup context `{"chat_history": chat_history}`
(`integrated_graph.py:294`, where `chat_history` may still be `None`) and —
through the store call of line 371 — the serialized full result state.  As
JSON dicts the two shapes are never equal: the former has exactly the key
`"chat_history"` while the latter always carries the full `AgentState` key
set (`"user_query"`, `"answer"`, ...), so the sorted-keys serialization keeps
them distinct and the model keeps them as distinct constructors. -/
inductive CacheCtx where
  | chatCtx (chat_history : Option (List ChatMsg))
  | resultCtx (result : AgentState)
deriving DecidableEq, Repr

/-- The dict `{"chat_history": chat_history}` built at
`integrated_graph.py:371` (by then `chat_history` has been defaulted to a
list). -/
structure ChatWrapper where
  chat_history : List ChatMsg
deriving DecidableEq, Repr

/-- The cache as instantiated by `run_query` through the module-level
`get_cache()` singleton: keys are `(normalized query, context)` pairs and —
because of the argument order at `integrated_graph.py:371` — the stored
values are `{"chat_history": ...}` wrapper dicts. -/
def RunCache : Type := QueryCache (String × CacheCtx) ChatWrapper

/-- The three dict shapes `run_query` can return: the final graph state
(line 373), a cache-hit payload (line 299; with this cache instantiation a
`ChatWrapper`, which carries no `"answer"` key), and the error dict of lines
388-396 whose fields beyond `answer`/`error` are the zeroed literals
`query_analysis = {}`, `es_results = {"total": 0}`, `naver_results = []`,
`is_relevant_enough = False`, `relevance_score = 0.0`. -/
inductive RunResult where
  | state (st : AgentState)
  | cached (w : ChatWrapper)
  | failure (answer error : String) (es_results_total : Nat)
      (naver_results : List SearchResult) (is_relevant_enough : Bool) (relevance_score : Rat)
deriving DecidableEq, Repr

/-- The `"answer"` key of a `run_query` result dict (absent on the wrapper
shape). -/
def RunResult.answerKey : RunResult → Option String
  | .state st => some st.answer
  | .cached _ => none
  | .failure a _ _ _ _ _ => some a

/-- The `run_query` runner (`integrated_graph.py:255-396`) with the cache
threaded explicitly (the code reaches it through the `get_cache()`
singleton) and the graph invocation abstracted as `invoke` (normally
`Except.ok ∘ graphInvoke o`, but LangGraph may also raise an unexpected
exception, which the model quantifies over).  Returns the result dict, the
cache after the call, and how many underlying pipeline executions (calls of
`invoke`) the call performed.  Mirrored faithfully: the cache lookup key uses
the original (possibly `None`) `chat_history`, while the store call of line
371 passes its arguments to `QueryCache.set(query, result, context)`
positionally — so the serialized result lands in the `context` (key) slot and
the `{"chat_history": ...}` wrapper in the `result` (value) slot; a raise
from `set` is caught by the surrounding `try` like any other exception. -/
def run_query (invoke : AgentState → Except String AgentState) (cache : RunCache) (now : Int)
    (user_query : String) (chat_history : Option (List ChatMsg)) (use_cache : Bool) :
    RunResult × RunCache × Nat :=
  let lookup :=
    if use_cache then
      let (r, c1) := cache.get now (pyNormQuery user_query, CacheCtx.chatCtx chat_history)
      (r, c1)
    else (none, cache)
  match lookup with
  | (some w, c1) => (.cached w, c1, 0)
  | (none, c1) =>
    let ch := chat_history.getD []
    match invoke (initialState user_query ch) with
    | .ok result =>
      if use_cache then
        match c1.set now
          (pyNormQuery user_query, CacheCtx.resultCtx (make_result_serializable result))
          ⟨ch⟩ with
        | .ok c2 => (.state result, c2, 1)
        | .error _ =>
          (.failure ("오류 발생: " ++ "min() arg is an empty sequence")
            "min() arg is an empty sequence" 0 [] false 0, c1, 1)
      else (.state result, c1, 1)
    | .error msg => (.failure ("오류 발생: " ++ msg) msg 0 [] false 0, c1, 1)

/-- One public cache operation, for stating invariants over arbitrary
operation sequences. -/
inductive CacheOp (κ ρ : Type) where
  | get (now : Int) (key : κ)
  | set (now : Int) (key : κ) (value : ρ)
  | clear
  | remove_expired (now : Int)

/-- The store state after one cache operation.  In the `set`/`ValueError`
case the exception propagates before any mutation, so the store is
unchanged. -/
def applyOp {κ ρ : Type} [DecidableEq κ] (c : QueryCache κ ρ) : CacheOp κ ρ → QueryCache κ ρ
  | .get now k => (QueryCache.get c now k).2
  | .set now k v =>
    match QueryCache.set c now k v with
    | .ok c2 => c2
    | .error _ => c
  | .clear => QueryCache.clear c
  | .remove_expired now => (QueryCache.remove_expired c now).2

/-- Oracle bundle with a failing analysis LLM, no Elasticsearch, failing
external providers and a generation LLM answering a fixed text: a fully
degraded environment in which the pipeline still runs end to end. -/
def degradedOracles : Oracles where
  analysisLLM := fun _ _ => .error ()
  es := none
  judgeLLM := fun _ _ _ _ _ => .ok "db"
  naver := fun _ => .error ()
  ddg := fun _ => .error ()
  genLLM := fun _ _ _ _ _ => .ok "테스트 답변"

/-- The graph invocation over `degradedOracles` (never raising). -/
def degradedInvoke : AgentState → Except String AgentState :=
  fun st => .ok (graphInvoke degradedOracles st)

/-- A fresh cache with the `get_cache()` defaults `max_size=1000`,
`ttl=3600`. -/
def emptyRunCache : RunCache := QueryCache.empty 1000 3600

/-- First `run_query` call of the cache round-trip experiment. -/
def cacheRoundTripFirst : RunResult × RunCache × Nat :=
  run_query degradedInvoke emptyRunCache 0 "오늘 뉴스" none true

/-- Second, identical `run_query` call, against the cache left by the
first (same query, same `chat_history`, same instant — well inside the TTL
window). -/
def cacheRoundTripSecond : RunResult × RunCache × Nat :=
  run_query degradedInvoke cacheRoundTripFirst.2.1 0 "오늘 뉴스" none true

/-- A state whose ES result mapping is non-empty but whose only sub-query
`"q1"` has an empty hit list; the user query contains no temporal keyword. -/
def emptyHitsState : AgentState :=
  { initialState "반도체 시장 동향" [] with es_results := ⟨[("q1", ⟨0, []⟩)], 0⟩ }

/-- A judge LLM that always answers `"db"` (internal data sufficient). -/
def judgeSaysDb : JudgeOracle := fun _ _ _ _ _ => .ok "db"

/-- A judge LLM that always answers with an upper-cased, padded `web`
verdict. -/
def judgeSaysWeb : JudgeOracle := fun _ _ _ _ _ => .ok " WEB "

/-- Oracle bundle identical to `degradedOracles` except that the generation
LLM succeeds with empty content. -/
def emptyGenOracles : Oracles :=
  { degradedOracles with genLLM := fun _ _ _ _ _ => .ok "" }

/-- One `run_query` call (caching off) in which every stage completes and
generation succeeds — with empty content. -/
def emptyGenRun : RunResult × RunCache × Nat :=
  run_query (fun st => .ok (graphInvoke emptyGenOracles st)) emptyRunCache 0 "질문" none false

/-- A state carrying one Naver hit and one DuckDuckGo web text. -/
def twoExternalState : AgentState :=
  { initialState "q" [] with
    naver_results := [⟨"네이버 기사", "http://naver.example/a", "요약문", "naver", none⟩]
    web_results := [("q", "헤드라인\nhttp://web.example/b")] }

/-- The source extracted from the Naver hit of `twoExternalState`. -/
def naverFixtureSource : Source :=
  ⟨"네이버 기사", "http://naver.example/a", "naver", "요약문", "", 1⟩

/-- The source extracted from the web text of `twoExternalState`. -/
def webFixtureSource : Source :=
  ⟨"헤드라인", "http://web.example/b", "web", "헤드라인\nhttp://web.example/b", "", WEB_SOURCE_SCORE⟩

/-- A relevance-check input state with recency keyword `"오늘"` in the user
query and one high-scoring internal hit. -/
def recencyWitnessState : AgentState :=
  { initialState "오늘 뉴스" [] with
    es_results := ⟨[("a", ⟨3, [⟨15, ⟨some "제목", none, some "http://in.example", some "본문", none, none⟩⟩]⟩)], 3⟩ }

/-- A relevance-check input state without recency keyword and one internal
hit for sub-query `"a"`. -/
def judgedWitnessState : AgentState :=
  { initialState "뉴스 질문" [] with
    es_results := ⟨[("a", ⟨1, [⟨7, ⟨some "제목", none, none, some "본문", none, none⟩⟩]⟩)], 1⟩ }

/-- A fan-out input state needing web search for `"a"` and `"b"`. -/
def fanoutWitnessState : AgentState :=
  { initialState "x" [] with need_websearch := ["a", "b"] }

/-- A Naver oracle failing on `"a"` and succeeding on `"b"`. -/
def fanoutWitnessNaver : NaverOracle := fun q =>
  if q = "b" then .ok [⟨"기사 b", "http://n.example/b", "요약", "naver", none⟩] else .error ()

/-- A DuckDuckGo oracle that always succeeds with a fixed text. -/
def fanoutWitnessDdg : DdgOracle := fun _ => .ok "ddg 결과"

theorem dictInsert_length_le {κ ν : Type} [DecidableEq κ] (l : List (κ × ν)) (k : κ) (v : ν) :
    (dictInsert l k v).length ≤ l.length + 1 := by
  unfold dictInsert
  split
  · simp [Nat.le_succ]
  · simp

theorem dictErase_length_of_mem {κ ν : Type} [DecidableEq κ] {l : List (κ × ν)} {k : κ}
    (h : k ∈ l.map Prod.fst) : (dictErase l k).length + 1 = l.length := by
  induction l with
  | nil => simp at h
  | cons p rest ih =>
    by_cases hp : p.1 = k
    · simp [dictErase, hp]
    · have hk : k ∈ rest.map Prod.fst := by
        rcases List.mem_map.mp h with ⟨q, hq, hqk⟩
        rcases List.mem_cons.mp hq with hq1 | hq2
        · exact absurd (hq1 ▸ hqk) hp
        · exact List.mem_map.mpr ⟨q, hq2, hqk⟩
      simp [dictErase, hp, ih hk]

theorem lruKeyAux_mem {κ ρ : Type} (cur : κ × CacheItem ρ) (l : List (κ × CacheItem ρ)) :
    lruKeyAux cur l ∈ cur.1 :: l.map Prod.fst := by
  induction l generalizing cur with
  | nil => simp [lruKeyAux]
  | cons p rest ih =>
    unfold lruKeyAux
    split
    · have := ih p
      rcases List.mem_cons.mp this with h | h
      · exact List.mem_cons.mpr (Or.inr (by simp [h]))
      · exact List.mem_cons.mpr (Or.inr (List.mem_cons.mpr (Or.inr h)))
    · have := ih cur
      rcases List.mem_cons.mp this with h | h
      · exact List.mem_cons.mpr (Or.inl h)
      · exact List.mem_cons.mpr (Or.inr (List.mem_cons.mpr (Or.inr h)))

theorem dictErase_length_le {κ ν : Type} [DecidableEq κ] (l : List (κ × ν)) (k : κ) :
    (dictErase l k).length ≤ l.length := by
  induction l with
  | nil => simp [dictErase]
  | cons p rest ih =>
    by_cases hp : p.1 = k
    · simp [dictErase, hp, Nat.le_succ]
    · simpa [dictErase, hp] using ih

theorem dictInsert_length_of_isSome {κ ν : Type} [DecidableEq κ] {l : List (κ × ν)} {k : κ}
    (v : ν) (h : (dictFind l k).isSome) : (dictInsert l k v).length = l.length := by
  unfold dictInsert
  rw [if_pos h]
  simp

theorem dictFind_isSome_mem {κ ν : Type} [DecidableEq κ] {l : List (κ × ν)} {k : κ}
    (h : (dictFind l k).isSome) : k ∈ l.map Prod.fst := by
  unfold dictFind at h
  rcases hof : l.find? (fun p => decide (p.1 = k)) with _ | q
  · simp [hof] at h
  · have hq : q.1 = k := by simpa using List.find?_some hof
    exact List.mem_map.mpr ⟨q, List.mem_of_find?_eq_some hof, hq⟩

theorem get_snd_bounds {κ ρ : Type} [DecidableEq κ] (c : QueryCache κ ρ) (now : Int) (k : κ) :
    (QueryCache.get c now k).2.max_size = c.max_size ∧
      (QueryCache.get c now k).2.cache.length ≤ c.cache.length := by
  unfold QueryCache.get
  rcases hf : dictFind c.cache k with _ | item
  · simp
  · by_cases ht : now - item.timestamp > c.ttl
    · simpa [ht] using dictErase_length_le c.cache k
    · have hs : (dictFind c.cache k).isSome := by simp [hf]
      simp [ht, dictInsert_length_of_isSome _ hs]

theorem set_ok_bounds {κ ρ : Type} [DecidableEq κ] (c : QueryCache κ ρ) (now : Int) (k : κ)
    (v : ρ) (c2 : QueryCache κ ρ) (hok : QueryCache.set c now k v = .ok c2)
    (h : c.cache.length ≤ c.max_size) :
    c2.max_size = c.max_size ∧ c2.cache.length ≤ c.max_size := by
  unfold QueryCache.set at hok
  by_cases hge : c.cache.length ≥ c.max_size
  · rcases hc : c.cache with _ | ⟨p, rest⟩
    · rw [if_pos (by omega), hc] at hok
      exact absurd hok (by simp)
    · rw [if_pos (by omega), hc] at hok
      have hvic : lruKeyAux p rest ∈ (p :: rest).map Prod.fst := by
        simpa using lruKeyAux_mem p rest
      have herase := dictErase_length_of_mem (l := p :: rest) (k := lruKeyAux p rest) hvic
      have hins := dictInsert_length_le (dictErase (p :: rest) (lruKeyAux p rest)) k
        (⟨v, now, now, 1⟩ : CacheItem ρ)
      have hlen : (p :: rest).length ≤ c.max_size := hc ▸ h
      cases hok
      constructor
      · rfl
      · simp only []
        omega
  · rw [if_neg hge] at hok
    have hins := dictInsert_length_le c.cache k (⟨v, now, now, 1⟩ : CacheItem ρ)
    cases hok
    exact ⟨rfl, by simp only []; omega⟩

theorem applyOp_bounds {κ ρ : Type} [DecidableEq κ] (c : QueryCache κ ρ) (op : CacheOp κ ρ)
    (h : c.cache.length ≤ c.max_size) :
    (applyOp c op).max_size = c.max_size ∧ (applyOp c op).cache.length ≤ c.max_size := by
  cases op with
  | get now k =>
    have hb := get_snd_bounds c now k
    exact ⟨hb.1, le_trans hb.2 h⟩
  | set now k v =>
    rcases hok : QueryCache.set c now k v with e | c2
    · have hred : applyOp c (CacheOp.set now k v) = c := by simp [applyOp, hok]
      rw [hred]
      exact ⟨rfl, h⟩
    · have hred : applyOp c (CacheOp.set now k v) = c2 := by simp [applyOp, hok]
      rw [hred]
      exact set_ok_bounds c now k v c2 hok h
  | clear => exact ⟨rfl, by simp [applyOp, QueryCache.clear]⟩
  | remove_expired now =>
    refine ⟨rfl, ?_⟩
    have : (c.cache.filter (fun p => ¬ (now - p.2.timestamp > c.ttl))).length ≤ c.cache.length :=
      List.length_filter_le _ _
    simpa [applyOp, QueryCache.remove_expired] using le_trans this h

/-- C10: the capacity predicate "the store holds at most `max_size` entries"
is preserved by every cache operation (`set` evicts an LRU entry before
inserting once the store has reached `max_size`; `get`, `clear` and
`remove_expired` never grow the store), and hence, starting from a fresh
cache, the entry count never exceeds `max_size` under any operation
sequence. -/
theorem cache_capacity_invariant {κ ρ : Type} [DecidableEq κ] :
    (∀ (c : QueryCache κ ρ) (op : CacheOp κ ρ), c.cache.length ≤ c.max_size →
        (applyOp c op).cache.length ≤ (applyOp c op).max_size ∧
          (applyOp c op).max_size = c.max_size)
    ∧ ∀ (max_size : Nat) (ttl : Int) (ops : List (CacheOp κ ρ)),
        (ops.foldl applyOp (QueryCache.empty max_size ttl)).cache.length ≤ max_size := by
  constructor
  · intro c op h
    have hb := applyOp_bounds c op h
    exact ⟨hb.1 ▸ hb.2, hb.1⟩
  · intro max_size ttl ops
    have key : ∀ (l : List (CacheOp κ ρ)) (c : QueryCache κ ρ),
        c.cache.length ≤ c.max_size → c.max_size = max_size →
        (l.foldl applyOp c).cache.length ≤ max_size ∧ (l.foldl applyOp c).max_size = max_size := by
      intro l
      induction l with
      | nil => intro c h1 h2; exact ⟨h2 ▸ h1, h2⟩
      | cons op rest ih =>
        intro c h1 h2
        have hb := applyOp_bounds c op h1
        exact ih (applyOp c op) (hb.1 ▸ hb.2) (hb.1.trans h2)
    exact (key ops (QueryCache.empty max_size ttl) (by simp [QueryCache.empty]) rfl).1

/-- C10 witness: a concrete full cache (`max_size = 1`) and a `set` of a new
key: the capacity bound is preserved. -/
theorem cache_capacity_invariant_witness :
    ((⟨[(1, ⟨5, 0, 0, 1⟩)], 1, 100, 0, 0⟩ : QueryCache Nat Nat).cache.length ≤
        (⟨[(1, ⟨5, 0, 0, 1⟩)], 1, 100, 0, 0⟩ : QueryCache Nat Nat).max_size)
    ∧ ((applyOp (⟨[(1, ⟨5, 0, 0, 1⟩)], 1, 100, 0, 0⟩ : QueryCache Nat Nat)
          (CacheOp.set 7 2 9)).cache.length ≤
        (applyOp (⟨[(1, ⟨5, 0, 0, 1⟩)], 1, 100, 0, 0⟩ : QueryCache Nat Nat)
          (CacheOp.set 7 2 9)).max_size
      ∧ (applyOp (⟨[(1, ⟨5, 0, 0, 1⟩)], 1, 100, 0, 0⟩ : QueryCache Nat Nat)
          (CacheOp.set 7 2 9)).max_size =
        (⟨[(1, ⟨5, 0, 0, 1⟩)], 1, 100, 0, 0⟩ : QueryCache Nat Nat).max_size) :=
  ⟨by decide, cache_capacity_invariant.1 _ _ (by decide)⟩

/-- C1: the cache round-trip fails on the code.  Two identical `run_query`
calls (query `"오늘 뉴스"`, no chat history, same instant, caching on, fresh
cache) each perform one underlying pipeline execution — the second call
misses the cache instead of returning the cached payload, because the store
call `cache.set(user_query, {"chat_history": ...}, serializable_result)`
passes the wrapper dict in the `result` (value) slot of `set` and the result in
its `context` (key) slot, so the key written (`resultCtx`) can never match
the key looked up (`chatCtx`); the one entry actually stored carries the
`{"chat_history": []}` wrapper, not the pipeline result. -/
theorem cache_roundtrip_reexecutes_pipeline :
    cacheRoundTripFirst.2.2 = 1
    ∧ cacheRoundTripSecond.2.2 = 1
    ∧ cacheRoundTripSecond.2.1.hits = 0
    ∧ cacheRoundTripSecond.2.1.misses = 2
    ∧ cacheRoundTripFirst.2.1.cache.map (fun p => p.2.result) = [⟨[]⟩] := by
  decide

theorem keys_nodup_value_eq {α β : Type} {l : List (α × β)} (hnd : (l.map Prod.fst).Nodup)
    {k : α} {v1 v2 : β} (h1 : (k, v1) ∈ l) (h2 : (k, v2) ∈ l) : v1 = v2 := by
  induction l with
  | nil => simp at h1
  | cons p rest ih =>
    have hnd2 : (rest.map Prod.fst).Nodup := (List.nodup_cons.mp (by simpa using hnd)).2
    have hnot : p.1 ∉ rest.map Prod.fst := (List.nodup_cons.mp (by simpa using hnd)).1
    rcases List.mem_cons.mp h1 with he1 | ht1
    · rcases List.mem_cons.mp h2 with he2 | ht2
      · rw [← he1] at he2
        exact (Prod.mk.injEq _ _ _ _ ▸ he2 : _ ∧ _).2.symm ▸ rfl
      · exfalso
        apply hnot
        have : k = p.1 := by rw [← he1]
        exact this ▸ List.mem_map.mpr ⟨(k, v2), ht2, rfl⟩
    · rcases List.mem_cons.mp h2 with he2 | ht2
      · exfalso
        apply hnot
        have : k = p.1 := by rw [← he2]
        exact this ▸ List.mem_map.mpr ⟨(k, v1), ht1, rfl⟩
      · exact ih hnd2 ht1 ht2

theorem check_relevance_empty (st : AgentState) (judge : JudgeOracle)
    (hl : st.es_results.queries = []) :
    (check_relevance st judge).need_websearch =
        (st.query_analysis.map QueryAnalysis.sub_queries).getD [st.user_query]
      ∧ (check_relevance st judge).is_relevant_enough = false := by
  simp [check_relevance, hl]

theorem need_websearch_eq (st : AgentState) (judge : JudgeOracle)
    (hne : st.es_results.queries ≠ []) :
    (check_relevance st judge).need_websearch =
      st.es_results.queries.filterMap (fun p =>
        if pyIn "web" (relevanceDecision judge st.user_query (needsRecentInfo st.user_query)
            (needsRecentInfo st.user_query ||
              (st.query_analysis.bind QueryAnalysis.needs_web_search).getD false) p.1 p.2.hits)
        then some p.1 else none) := by
  have hie : st.es_results.queries.isEmpty = false := by
    rcases hq : st.es_results.queries with _ | _
    · exact absurd hq hne
    · rfl
  simp [check_relevance, hie]

theorem is_relevant_enough_eq (st : AgentState) (judge : JudgeOracle)
    (hne : st.es_results.queries ≠ []) :
    (check_relevance st judge).is_relevant_enough =
      (check_relevance st judge).need_websearch.isEmpty := by
  have hie : st.es_results.queries.isEmpty = false := by
    rcases hq : st.es_results.queries with _ | _
    · exact absurd hq hne
    · rfl
  simp [check_relevance, hie]

theorem mem_need_websearch_iff (st : AgentState) (judge : JudgeOracle) (q : String)
    (res : ESQueryRes) (hmem : (q, res) ∈ st.es_results.queries)
    (hnd : (st.es_results.queries.map Prod.fst).Nodup) :
    q ∈ (check_relevance st judge).need_websearch ↔
      pyIn "web" (relevanceDecision judge st.user_query (needsRecentInfo st.user_query)
        (needsRecentInfo st.user_query ||
          (st.query_analysis.bind QueryAnalysis.needs_web_search).getD false) q res.hits) = true := by
  rw [need_websearch_eq st judge (List.ne_nil_of_mem hmem), List.mem_filterMap]
  constructor
  · rintro ⟨p, hp, hfp⟩
    by_cases hc : pyIn "web" (relevanceDecision judge st.user_query (needsRecentInfo st.user_query)
        (needsRecentInfo st.user_query ||
          (st.query_analysis.bind QueryAnalysis.needs_web_search).getD false) p.1 p.2.hits) = true
    · rw [if_pos hc] at hfp
      have hpq : p.1 = q := by simpa using hfp
      have hres : p.2 = res := by
        have hp' : (q, p.2) ∈ st.es_results.queries := by
          rw [← hpq]
          simpa using hp
        exact keys_nodup_value_eq hnd hp' hmem
      rw [← hpq, ← hres]
      exact hc
    · rw [if_neg hc] at hfp
      exact absurd hfp (by simp)
  · intro hc
    exact ⟨(q, res), hmem, by rw [if_pos hc]⟩

/-- C2: a recency keyword in the user query forces every evaluated sub-query
into `need_websearch` (regardless of its internal hits or scores and of the
judge), and the conditional edge then always routes to the external-search
node. -/
theorem recency_override_forces_websearch (st : AgentState) (judge : JudgeOracle)
    (h : needsRecentInfo st.user_query = true) :
    (∀ q ∈ st.es_results.queries.map Prod.fst, q ∈ (check_relevance st judge).need_websearch)
    ∧ nextNodeAfterRelevance (check_relevance st judge) = some GraphNode.naver_search_node := by
  have hdec : ∀ (q : String) (hits : List ESHit),
      relevanceDecision judge st.user_query (needsRecentInfo st.user_query)
        (needsRecentInfo st.user_query ||
          (st.query_analysis.bind QueryAnalysis.needs_web_search).getD false) q hits = "web" := by
    intro q hits
    unfold relevanceDecision
    rw [h]
    simp
  have hcov : ∀ q ∈ st.es_results.queries.map Prod.fst,
      q ∈ (check_relevance st judge).need_websearch := by
    intro q hq
    rcases List.mem_map.mp hq with ⟨p, hp, hpq⟩
    rw [need_websearch_eq st judge (List.ne_nil_of_mem hp)]
    apply List.mem_filterMap.mpr
    refine ⟨p, hp, ?_⟩
    rw [hdec p.1 p.2.hits, if_pos (by decide : pyIn "web" "web" = true), hpq]
  refine ⟨hcov, ?_⟩
  rcases hl : st.es_results.queries with _ | ⟨p0, rest⟩
  · have he := check_relevance_empty st judge hl
    simp [nextNodeAfterRelevance, should_search_naver, he.2, relevanceEdgeMap, dictFind]
  · have hmem0 : p0.1 ∈ st.es_results.queries.map Prod.fst := by
      rw [hl]
      exact List.mem_map.mpr ⟨p0, by simp, rfl⟩
    have hlen : (check_relevance st judge).need_websearch.length > 0 :=
      List.length_pos.mpr (List.ne_nil_of_mem (hcov p0.1 hmem0))
    simp [nextNodeAfterRelevance, should_search_naver, hlen, relevanceEdgeMap, dictFind]

/-- C2 witness: the query `"오늘 뉴스"` (recency keyword `"오늘"`), one
sub-query with a high-scoring internal hit, a judge answering `"db"`: the
sub-query is still forced into `need_websearch` and the edge routes to the
external-search node. -/
theorem recency_override_forces_websearch_witness :
    needsRecentInfo recencyWitnessState.user_query = true
    ∧ ((∀ q ∈ recencyWitnessState.es_results.queries.map Prod.fst,
          q ∈ (check_relevance recencyWitnessState judgeSaysDb).need_websearch)
      ∧ nextNodeAfterRelevance (check_relevance recencyWitnessState judgeSaysDb) =
          some GraphNode.naver_search_node) :=
  ⟨by decide, recency_override_forces_websearch recencyWitnessState judgeSaysDb (by decide)⟩

/-- C3 counterexample: sub-query `"q1"` has an empty internal hit list, no
recency keyword fires, the mapping itself is non-empty — yet with a judge
answering `"db"` the sub-query is NOT classified insufficient
(`need_websearch` stays empty and `is_relevant_enough` is `true`): the code
has no per-sub-query empty-results rule; the outcome depends on the LLM
judge. -/
theorem empty_hits_not_marked_insufficient :
    needsRecentInfo emptyHitsState.user_query = false
    ∧ ("q1", (⟨0, []⟩ : ESQueryRes)) ∈ emptyHitsState.es_results.queries
    ∧ "q1" ∉ (check_relevance emptyHitsState judgeSaysDb).need_websearch
    ∧ (check_relevance emptyHitsState judgeSaysDb).is_relevant_enough = true := by
  decide

/-- C3 amended: only when the ENTIRE internal result mapping is empty are all
analysis sub-queries marked insufficient without the judge; an individual
sub-query with an empty hit list (in a non-empty mapping, no override) is
sent to the LLM judge with score `0.0` and the no-documents sentinel context,
and is insufficient exactly when the judge reply contains `"web"`
(sufficient by default when the judge call raises). -/
theorem empty_hits_judged_by_llm :
    (∀ (st : AgentState) (judge : JudgeOracle), st.es_results.queries = [] →
        (check_relevance st judge).need_websearch =
            (st.query_analysis.map QueryAnalysis.sub_queries).getD [st.user_query]
          ∧ (check_relevance st judge).is_relevant_enough = false)
    ∧ ∀ (st : AgentState) (judge : JudgeOracle) (q : String) (t : Nat),
        needsRecentInfo st.user_query = false →
        (st.query_analysis.bind QueryAnalysis.needs_web_search).getD false = false →
        (q, (⟨t, []⟩ : ESQueryRes)) ∈ st.es_results.queries →
        (st.es_results.queries.map Prod.fst).Nodup →
        (q ∈ (check_relevance st judge).need_websearch ↔
          ∃ resp, judge q 0 "내부 DB에서 검색된 문서가 없습니다." st.user_query false = .ok resp
            ∧ pyIn "web" (pyLower (pyStrip resp)) = true) := by
  constructor
  · intro st judge hl
    exact check_relevance_empty st judge hl
  · intro st judge q t h1 h2 hmem hnd
    rw [mem_need_websearch_iff st judge q ⟨t, []⟩ hmem hnd]
    unfold relevanceDecision
    rw [h1, h2]
    simp only [Bool.or_self, Bool.false_eq_true, if_false, topHitScore, relevanceContext]
    rcases hj : judge q 0 "내부 DB에서 검색된 문서가 없습니다." st.user_query false with e | resp
    · have hdb : pyIn "web" "db" = false := by decide
      simp [hj, hdb]
    · simp [hj]

/-- C3 amended witness: `"q1"` with empty hits, no override, judge answering
`" WEB "`: the classification follows the judge reply on the sentinel
context. -/
theorem empty_hits_judged_by_llm_witness :
    (("q1", (⟨0, []⟩ : ESQueryRes)) ∈ emptyHitsState.es_results.queries)
    ∧ ("q1" ∈ (check_relevance emptyHitsState judgeSaysWeb).need_websearch ↔
        ∃ resp, judgeSaysWeb "q1" 0 "내부 DB에서 검색된 문서가 없습니다."
            emptyHitsState.user_query false = .ok resp
          ∧ pyIn "web" (pyLower (pyStrip resp)) = true) :=
  ⟨by decide,
    empty_hits_judged_by_llm.2 emptyHitsState judgeSaysWeb "q1" 0
      (by decide) (by decide) (by decide) (by decide)⟩

/-- C4: with no recency/analysis override, a judged sub-query lands in
`need_websearch` exactly when the judge invocation succeeds with a reply
whose lower-cased, stripped content contains the substring `"web"`; any
other reply — and any raising invocation — leaves it sufficient. -/
theorem judge_decision_decoding (st : AgentState) (judge : JudgeOracle) (q : String)
    (res : ESQueryRes)
    (h1 : needsRecentInfo st.user_query = false)
    (h2 : (st.query_analysis.bind QueryAnalysis.needs_web_search).getD false = false)
    (hmem : (q, res) ∈ st.es_results.queries)
    (hnd : (st.es_results.queries.map Prod.fst).Nodup) :
    q ∈ (check_relevance st judge).need_websearch ↔
      ∃ resp, judge q (topHitScore res.hits) (relevanceContext res.hits) st.user_query false =
          .ok resp
        ∧ pyIn "web" (pyLower (pyStrip resp)) = true := by
  rw [mem_need_websearch_iff st judge q res hmem hnd]
  unfold relevanceDecision
  rw [h1, h2]
  simp only [Bool.or_self, Bool.false_eq_true, if_false]
  rcases hj : judge q (topHitScore res.hits) (relevanceContext res.hits) st.user_query false
    with e | resp
  · have hdb : pyIn "web" "db" = false := by decide
    simp [hj, hdb]
  · simp [hj]

/-- C4 witness: a judged sub-query with one internal hit and a judge replying
`" WEB "`: the decoding rule applies as stated. -/
theorem judge_decision_decoding_witness :
    (("a", (⟨1, [⟨7, ⟨some "제목", none, none, some "본문", none, none⟩⟩]⟩ : ESQueryRes)) ∈
        judgedWitnessState.es_results.queries)
    ∧ ("a" ∈ (check_relevance judgedWitnessState judgeSaysWeb).need_websearch ↔
        ∃ resp, judgeSaysWeb "a"
            (topHitScore [⟨7, ⟨some "제목", none, none, some "본문", none, none⟩⟩])
            (relevanceContext [⟨7, ⟨some "제목", none, none, some "본문", none, none⟩⟩])
            judgedWitnessState.user_query false = .ok resp
          ∧ pyIn "web" (pyLower (pyStrip resp)) = true) :=
  ⟨by decide,
    judge_decision_decoding judgedWitnessState judgeSaysWeb "a"
      ⟨1, [⟨7, ⟨some "제목", none, none, some "본문", none, none⟩⟩]⟩
      (by decide) (by decide) (by decide) (by decide)⟩

/-- C5: the conditional edge out of `relevance_check` routes to the external
(naver) search node iff `need_websearch` is non-empty or
`is_relevant_enough` is false, and otherwise routes to the context-building
node. -/
theorem branch_predicate_routes (st : AgentState) :
    (nextNodeAfterRelevance st = some GraphNode.naver_search_node ↔
      (st.need_websearch ≠ [] ∨ st.is_relevant_enough = false))
    ∧ (nextNodeAfterRelevance st = some GraphNode.build_context_node ↔
      ¬ (st.need_websearch ≠ [] ∨ st.is_relevant_enough = false)) := by
  have hiff : (st.need_websearch ≠ [] ∨ st.is_relevant_enough = false) ↔
      (st.is_relevant_enough = false ∨ st.need_websearch.length > 0) := by
    constructor
    · rintro (h | h)
      · exact Or.inr (List.length_pos.mpr h)
      · exact Or.inl h
    · rintro (h | h)
      · exact Or.inr h
      · exact Or.inl (List.length_pos.mp h)
  by_cases hc : st.is_relevant_enough = false ∨ st.need_websearch.length > 0
  · have hs : should_search_naver st = "naver_search" := by simp [should_search_naver, hc]
    have hn : nextNodeAfterRelevance st = some GraphNode.naver_search_node := by
      unfold nextNodeAfterRelevance
      rw [hs]
      rfl
    exact ⟨by simp [hn, hiff, hc], by simp [hn, hiff, hc]⟩
  · have hs : should_search_naver st = "build_context" := by simp [should_search_naver, hc]
    have hn : nextNodeAfterRelevance st = some GraphNode.build_context_node := by
      unfold nextNodeAfterRelevance
      rw [hs]
      rfl
    exact ⟨by simp [hn, hiff, hc], by simp [hn, hiff, hc]⟩

theorem naver_mem_calls_iff (naver : NaverOracle) (q q' : String) :
    ProviderCall.naver q ∈ searchOneQueryCalls naver q' ↔ q' = q := by
  unfold searchOneQueryCalls
  rcases naver q' with e | rs
  · constructor
    · intro h
      rcases List.mem_cons.mp h with h1 | h1
      · cases h1; rfl
      · simp at h1
    · rintro rfl
      simp
  · constructor
    · intro h
      rcases List.mem_cons.mp h with h1 | h1
      · cases h1; rfl
      · simp at h1
    · rintro rfl
      simp

theorem count_calls_naver (naver : NaverOracle) (q q' : String) :
    (searchOneQueryCalls naver q').count (ProviderCall.naver q) = if q' = q then 1 else 0 := by
  unfold searchOneQueryCalls
  rcases naver q' with e | rs
  · by_cases hq : q' = q <;> simp [hq, List.count_cons]
  · by_cases hq : q' = q <;> simp [hq, List.count_cons]

theorem count_trace_naver (naver : NaverOracle) (l : List String) (q : String)
    (hq : q ∈ l) (hnd : l.Nodup) :
    (searchNaverTrace naver l).count (ProviderCall.naver q) = 1 := by
  unfold searchNaverTrace
  induction l with
  | nil => simp at hq
  | cons a rest ih =>
    rw [List.flatMap_cons, List.count_append]
    rcases List.mem_cons.mp hq with rfl | hmem
    · have hnotin : q ∉ rest := (List.nodup_cons.mp hnd).1
      have hrest : (rest.flatMap (searchOneQueryCalls naver)).count (ProviderCall.naver q) = 0 := by
        rw [List.count_eq_zero]
        intro habs
        rcases List.mem_flatMap.mp habs with ⟨q', hq', hin⟩
        exact hnotin (((naver_mem_calls_iff naver q q').mp hin) ▸ hq')
      rw [count_calls_naver naver q q, if_pos rfl, hrest]
    · have ha : ¬ (a = q) := by
        rintro rfl
        exact (List.nodup_cons.mp hnd).1 hmem
      rw [count_calls_naver naver q a, if_neg ha, ih hmem (List.nodup_cons.mp hnd).2]

theorem ddg_mem_trace_iff (naver : NaverOracle) (l : List String) (q : String) (hq : q ∈ l) :
    ProviderCall.ddg q ∈ searchNaverTrace naver l ↔ naver q = .error () := by
  unfold searchNaverTrace
  rw [List.mem_flatMap]
  constructor
  · rintro ⟨q', hq', hin⟩
    rcases hn : naver q' with e | rs
    · have hqq : q = q' := by
        unfold searchOneQueryCalls at hin
        rw [hn] at hin
        rcases List.mem_cons.mp hin with h1 | h1
        · cases h1
        · rcases List.mem_cons.mp h1 with h2 | h2
          · cases h2; rfl
          · simp at h2
      cases e
      rw [hqq]
      exact hn
    · exfalso
      unfold searchOneQueryCalls at hin
      rw [hn] at hin
      rcases List.mem_cons.mp hin with h1 | h1
      · cases h1
      · simp at h1
  · intro hn
    refine ⟨q, hq, ?_⟩
    unfold searchOneQueryCalls
    rw [hn]
    simp

theorem dictFind_map_self {κ ν : Type} [DecidableEq κ] (f : κ → ν) (l : List κ) (q : κ)
    (hq : q ∈ l) : dictFind (l.map (fun x => (x, f x))) q = some (f q) := by
  induction l with
  | nil => simp at hq
  | cons a rest ih =>
    by_cases ha : a = q
    · subst ha
      simp [dictFind, List.find?_cons]
    · rcases List.mem_cons.mp hq with h1 | hmem
      · exact absurd h1.symm ha
      · have := ih hmem
        simpa [dictFind, List.find?_cons, ha] using this

/-- C6: per sub-query of `need_websearch` (distinct sub-queries), the primary
provider (Naver) is invoked exactly once; the secondary provider
(DuckDuckGo) is invoked iff the primary call fails; the first non-error
result is the one stored for the sub-query (no further provider tried); and
when both providers fail, the failure sentinel is stored — the node itself is
total, so no provider failure fails the pipeline. -/
theorem fallback_chain_per_subquery (st : AgentState) (naver : NaverOracle) (ddg : DdgOracle)
    (q : String) (hq : q ∈ st.need_websearch) (hnd : st.need_websearch.Nodup) :
    ((searchNaverTrace naver st.need_websearch).count (ProviderCall.naver q) = 1)
    ∧ (ProviderCall.ddg q ∈ searchNaverTrace naver st.need_websearch ↔ naver q = .error ())
    ∧ (∀ rs, naver q = .ok rs →
        dictFind (search_naver st naver ddg).web_results q = some (formatNaverResults rs))
    ∧ (∀ text, naver q = .error () → ddg q = .ok text →
        dictFind (search_naver st naver ddg).web_results q = some text)
    ∧ (naver q = .error () → ddg q = .error () →
        dictFind (search_naver st naver ddg).web_results q = some WEB_SEARCH_FAILED) := by
  have hie : st.need_websearch.isEmpty = false := by
    rcases h : st.need_websearch with _ | _
    · rw [h] at hq
      simp at hq
    · rfl
  have hwr : (search_naver st naver ddg).web_results =
      st.need_websearch.map (fun q' => (q', searchOneQueryResult naver ddg q')) := by
    simp [search_naver, hie]
  have hfind : dictFind (search_naver st naver ddg).web_results q =
      some (searchOneQueryResult naver ddg q) := by
    rw [hwr]
    exact dictFind_map_self _ st.need_websearch q hq
  refine ⟨count_trace_naver naver st.need_websearch q hq hnd,
    ddg_mem_trace_iff naver st.need_websearch q hq, ?_, ?_, ?_⟩
  · intro rs hn
    rw [hfind]
    unfold searchOneQueryResult
    rw [hn]
  · intro text hn hd
    rw [hfind]
    unfold searchOneQueryResult
    rw [hn, hd]
  · intro hn hd
    rw [hfind]
    unfold searchOneQueryResult
    rw [hn, hd]

/-- C6 witness: `need_websearch = ["a", "b"]`, Naver failing on `"a"` and
succeeding on `"b"`, DuckDuckGo succeeding: the fallback facts hold for
`"a"`. -/
theorem fallback_chain_per_subquery_witness :
    ("a" ∈ fanoutWitnessState.need_websearch ∧ fanoutWitnessState.need_websearch.Nodup)
    ∧ (((searchNaverTrace fanoutWitnessNaver fanoutWitnessState.need_websearch).count
          (ProviderCall.naver "a") = 1)
      ∧ (ProviderCall.ddg "a" ∈ searchNaverTrace fanoutWitnessNaver fanoutWitnessState.need_websearch
          ↔ fanoutWitnessNaver "a" = .error ())
      ∧ (∀ rs, fanoutWitnessNaver "a" = .ok rs →
          dictFind (search_naver fanoutWitnessState fanoutWitnessNaver fanoutWitnessDdg).web_results
            "a" = some (formatNaverResults rs))
      ∧ (∀ text, fanoutWitnessNaver "a" = .error () → fanoutWitnessDdg "a" = .ok text →
          dictFind (search_naver fanoutWitnessState fanoutWitnessNaver fanoutWitnessDdg).web_results
            "a" = some text)
      ∧ (fanoutWitnessNaver "a" = .error () → fanoutWitnessDdg "a" = .error () →
          dictFind (search_naver fanoutWitnessState fanoutWitnessNaver fanoutWitnessDdg).web_results
            "a" = some WEB_SEARCH_FAILED)) :=
  ⟨⟨by decide, by decide⟩,
    fallback_chain_per_subquery fanoutWitnessState fanoutWitnessNaver fanoutWitnessDdg "a"
      (by decide) (by decide)⟩

theorem string_append_ne_empty (s t : String) (h : s.data ≠ []) : s ++ t ≠ "" := by
  intro habs
  have hd : s.data ++ t.data = [] := by
    have := congrArg String.data habs
    simpa using this
  exact h (List.append_eq_nil.mp hd).1

/-- C7 counterexample: with every stage completing (degraded capabilities,
no sources) and the generation LLM succeeding with empty content, the
successful `run_query` call returns a result whose `answer` is the EMPTY
string — the never-empty-answer guarantee does not hold for every input. -/
theorem successful_empty_generation_empty_answer :
    emptyGenRun.1.answerKey = some "" ∧ emptyGenRun.2.2 = 1 := by
  decide

/-- C7 amended: `run_query` is a total function of its oracles (it never
raises); when the graph invocation raises (caching off), the call returns
exactly the error dict — `answer` the non-empty string `"오류 발생: " + msg`,
`error` the message, and the structured fields zeroed — and when the
generation call fails inside the graph, the stage still returns the
non-empty literal error answer; only a generation success with empty content
(and no appended sources) can make `answer` empty. -/
theorem run_query_error_conversion :
    (∀ (invoke : AgentState → Except String AgentState) (cache : RunCache) (now : Int)
        (q : String) (ch : Option (List ChatMsg)) (m : String),
        invoke (initialState q (ch.getD [])) = .error m →
        run_query invoke cache now q ch false =
            (.failure ("오류 발생: " ++ m) m 0 [] false 0, cache, 1)
          ∧ ("오류 발생: " ++ m) ≠ "")
    ∧ ∀ (st : AgentState) (gen : GenOracle) (e : String),
        gen st.user_query st.context (decide (st.web_results.length > 0))
            (decide (st.es_results.total > 0)) st.chat_history = .error e →
        (generate_answer st gen).answer = "답변 생성 중 오류가 발생했습니다: " ++ e
          ∧ ("답변 생성 중 오류가 발생했습니다: " ++ e) ≠ "" := by
  constructor
  · intro invoke cache now q ch m hinv
    refine ⟨?_, string_append_ne_empty _ _ (by decide)⟩
    simp [run_query, hinv]
  · intro st gen e hg
    refine ⟨?_, string_append_ne_empty _ _ (by decide)⟩
    simp [generate_answer, hg]

/-- C7 amended witness: a raising invocation and a failing generation call at
concrete inputs. -/
theorem run_query_error_conversion_witness :
    ((fun _ => (Except.error "boom" : Except String AgentState))
        (initialState "q" ((none : Option (List ChatMsg)).getD [])) = .error "boom")
    ∧ (run_query (fun _ => .error "boom") emptyRunCache 0 "q" none false =
          (.failure ("오류 발생: " ++ "boom") "boom" 0 [] false 0, emptyRunCache, 1)
        ∧ ("오류 발생: " ++ "boom") ≠ "")
    ∧ ((generate_answer (initialState "질문" []) (fun _ _ _ _ _ => .error "중단")).answer =
          "답변 생성 중 오류가 발생했습니다: " ++ "중단"
        ∧ ("답변 생성 중 오류가 발생했습니다: " ++ "중단") ≠ "") :=
  ⟨rfl,
    run_query_error_conversion.1 (fun _ => .error "boom") emptyRunCache 0 "q" none "boom" rfl,
    run_query_error_conversion.2 (initialState "질문" []) (fun _ _ _ _ _ => .error "중단")
      "중단" rfl⟩

theorem dedupByUrlAux_pairwise (l : List Source) : ∀ seen : List String,
    (dedupByUrlAux seen l).Pairwise (fun a b => a.url = "" ∨ a.url ≠ b.url)
    ∧ ∀ s ∈ dedupByUrlAux seen l, s.url ≠ "" → s.url ∉ seen := by
  induction l with
  | nil => intro seen; simp [dedupByUrlAux]
  | cons s rest ih =>
    intro seen
    by_cases hc : s.url ≠ "" ∧ s.url ∈ seen
    · simpa [dedupByUrlAux, hc] using ih seen
    · have hred : dedupByUrlAux seen (s :: rest) =
          s :: dedupByUrlAux (if s.url ≠ "" then s.url :: seen else seen) rest := by
        simp [dedupByUrlAux, hc]
      have hrec := ih (if s.url ≠ "" then s.url :: seen else seen)
      rw [hred]
      constructor
      · refine List.pairwise_cons.mpr ⟨?_, hrec.1⟩
        intro t ht
        by_cases hs : s.url = ""
        · exact Or.inl hs
        · right
          intro heq
          have hturl : t.url ≠ "" := by
            rw [← heq]
            exact hs
          have hnot := hrec.2 t ht hturl
          rw [if_pos hs] at hnot
          exact hnot (by rw [← heq]; exact List.mem_cons_self _ _)
      · intro t ht
        rcases List.mem_cons.mp ht with rfl | htl
        · intro hne habs
          exact hc ⟨hne, habs⟩
        · intro hne habs
          apply hrec.2 t htl hne
          by_cases hs : s.url = ""
          · rwa [if_neg (by simpa using hs)]
          · rw [if_pos hs]
            exact List.mem_cons_of_mem _ habs

theorem dedupByUrlAux_subset {s : Source} (l : List Source) : ∀ seen : List String,
    s ∈ dedupByUrlAux seen l → s ∈ l := by
  induction l with
  | nil => intro seen h; simp [dedupByUrlAux] at h
  | cons t rest ih =>
    intro seen h
    by_cases hc : t.url ≠ "" ∧ t.url ∈ seen
    · simp only [dedupByUrlAux, if_pos hc] at h
      exact List.mem_cons_of_mem _ (ih seen h)
    · simp only [dedupByUrlAux, if_neg hc] at h
      rcases List.mem_cons.mp h with rfl | htl
      · exact List.mem_cons_self _ _
      · exact List.mem_cons_of_mem _ (ih _ htl)

theorem url_rel_symm : ∀ {a b : Source},
    (a.url = "" ∨ a.url ≠ b.url) → (b.url = "" ∨ b.url ≠ a.url) := by
  intro a b h
  by_cases hb : b.url = ""
  · exact Or.inl hb
  · right
    intro heq
    rcases h with h1 | h1
    · exact hb (heq.trans h1)
    · exact h1 heq.symm

theorem sortByScoreDesc_sorted (l : List Source) :
    (sortByScoreDesc l).Pairwise (fun a b => b.score ≤ a.score) := by
  haveI : IsTotal Source (fun a b => b.score ≤ a.score) := ⟨fun a b => le_total b.score a.score⟩
  haveI : IsTrans Source (fun a b => b.score ≤ a.score) := ⟨fun _ _ _ h1 h2 => le_trans h2 h1⟩
  exact List.sorted_insertionSort _ l

/-- C8: the `sources` list stored by `build_context` carries at most one
entry per non-empty URL, holds at most 10 entries, and is sorted by score in
non-increasing order. -/
theorem sources_dedup_cap_sorted (st : AgentState) :
    (build_context st).sources.Pairwise (fun a b => a.url = "" ∨ a.url ≠ b.url)
    ∧ (build_context st).sources.length ≤ 10
    ∧ (build_context st).sources.Pairwise (fun a b : Source => b.score ≤ a.score) := by
  have hs : (build_context st).sources = extract_sources_from_state st 10 := by
    simp [build_context]
  rw [hs]
  unfold extract_sources_from_state
  refine ⟨?_, ?_, ?_⟩
  · have hd := (dedupByUrlAux_pairwise
      (esSources st.es_results.queries ++ naverSources st.naver_results 10
        ++ webSources st.web_results) []).1
    have hperm := List.perm_insertionSort (fun a b : Source => b.score ≤ a.score)
      (dedupByUrl (esSources st.es_results.queries ++ naverSources st.naver_results 10
        ++ webSources st.web_results))
    have hsorted := hd.perm hperm.symm (fun h => url_rel_symm h)
    exact List.Pairwise.sublist (List.take_sublist _ _) hsorted
  · exact List.length_take_le _ _
  · exact List.Pairwise.sublist (List.take_sublist _ _) (sortByScoreDesc_sorted _)

theorem mem_esSources_type {s : Source} {queries : List (String × ESQueryRes)}
    (h : s ∈ esSources queries) : s.source_type = "internal_db" := by
  rcases List.mem_flatMap.mp h with ⟨p, _, hs⟩
  rcases List.mem_map.mp hs with ⟨hit, _, heq⟩
  rw [← heq]

theorem mem_naverSources_fields {s : Source} {naver_results : List SearchResult} {m : Nat}
    (h : s ∈ naverSources naver_results m) : s.source_type = "naver" ∧ s.score = 1 := by
  rcases List.mem_map.mp h with ⟨r, _, heq⟩
  rw [← heq]
  exact ⟨rfl, rfl⟩

theorem mem_webSources_fields {s : Source} {web_results : List (String × String)}
    (h : s ∈ webSources web_results) : s.source_type = "web" ∧ s.score = WEB_SOURCE_SCORE := by
  rcases List.mem_filterMap.mp h with ⟨p, _, heq⟩
  by_cases hc : p.2 ≠ "" ∧ p.2 ≠ WEB_SEARCH_FAILED
  · rw [if_pos hc] at heq
    have := Option.some.inj heq
    rw [← this]
    exact ⟨rfl, rfl⟩
  · rw [if_neg hc] at heq
    exact absurd heq (by simp)

/-- C9 counterexample: a state with one Naver hit and one DuckDuckGo text
yields two external sources with DIFFERENT fixed scores — `1.0` for the
Naver-derived source and `0.9` for the web-text-derived source — refuting
the single-fixed-constant claim (and `1.0` is not below the top internal
band). -/
theorem external_sources_not_single_constant :
    extract_sources_from_state twoExternalState 10 = [naverFixtureSource, webFixtureSource]
    ∧ naverFixtureSource.source_type = "naver"
    ∧ webFixtureSource.source_type = "web"
    ∧ naverFixtureSource.score ≠ webFixtureSource.score := by
  decide

/-- C9 amended: each external extraction path has its own fixed constant —
every Naver-derived source scores exactly `1.0` and every
`web_results`-derived source exactly `0.9`; they are not one shared
constant. -/
theorem external_source_scores_fixed_per_provider (st : AgentState) (m : Nat) (s : Source)
    (hs : s ∈ extract_sources_from_state st m) :
    (s.source_type = "naver" → s.score = 1)
    ∧ (s.source_type = "web" → s.score = WEB_SOURCE_SCORE) := by
  unfold extract_sources_from_state at hs
  have h1 := (List.take_sublist _ _).subset hs
  have h2 := ((List.perm_insertionSort (fun a b : Source => b.score ≤ a.score) _).mem_iff).mp h1
  have h3 := dedupByUrlAux_subset _ [] h2
  rcases List.mem_append.mp h3 with h4 | h4
  · rcases List.mem_append.mp h4 with h5 | h5
    · have ht := mem_esSources_type h5
      exact ⟨fun h => absurd (ht.symm.trans h) (by decide),
        fun h => absurd (ht.symm.trans h) (by decide)⟩
    · have ht := mem_naverSources_fields h5
      exact ⟨fun _ => ht.2, fun h => absurd (ht.1.symm.trans h) (by decide)⟩
  · have ht := mem_webSources_fields h4
    exact ⟨fun h => absurd (ht.1.symm.trans h) (by decide), fun _ => ht.2⟩

/-- C9 amended witness: the Naver-derived source of the two-external state. -/
theorem external_source_scores_fixed_per_provider_witness :
    (naverFixtureSource ∈ extract_sources_from_state twoExternalState 10)
    ∧ ((naverFixtureSource.source_type = "naver" → naverFixtureSource.score = 1)
      ∧ (naverFixtureSource.source_type = "web" → naverFixtureSource.score = WEB_SOURCE_SCORE)) :=
  ⟨by decide,
    external_source_scores_fixed_per_provider twoExternalState 10 naverFixtureSource (by decide)⟩
